import Mathlib

set_option linter.unusedVariables false

/-!
Verification of the voice/text chat front-end (VoiceSeek).

The development shallowly embeds the sequencing logic of the repository:

* the shared chat data model (`Message`, the DeepSeek result types);
* `queryDeepSeek` (app/services/query-deepseek.ts);
* the four relay endpoint actions (app/routes/transcribe.ts,
  app/routes/api.process-text.ts, the textmessage route, and the chained
  transcribe action bundled with app/routes/app.tsx);
* the MainInterface component handlers (the chained fetcher variant of
  app/components/MainInterface.tsx, called the canonical variant below) and
  the two variants kept in the unnamed part_001 source file (the counter-id
  variant, P1A below, and the dual-fetcher variant, P1B below).

Conventions used throughout the embedding:

* JavaScript values that may be absent (`undefined`) are `Option`s.
* JavaScript string truthiness (`if (s)` is false for `undefined` and `""`)
  is the function `strTruthy`.
* Code that throws is embedded with `Except`: an upstream call or a JSON
  parse that can fail is passed in as an `Except`/sum argument, and a code
  path that itself throws an uncaught exception produces `Except.error`.
* `Date.now()` values and `Math.random()` suffixes are threaded in as
  explicit `Nat`/`String` arguments, one pair per `addMessage` call.
* Numeric transcription metadata (floating point in the JSON wire format)
  is carried opaquely and never computed with; it is modelled as `Int`.
-/

/-- Truthiness of a JavaScript string value: `undefined` and the empty
string are falsy, every other string is truthy. -/
def strTruthy : Option String → Bool
  | none => false
  | some s => s != ""

/-- Whitespace as recognised by the JavaScript `String.prototype.trim`.
JavaScript also strips some Unicode space characters; the embedding keeps
the ASCII white space set, which is all the guards of this application
distinguish. -/
def jsWhitespace (c : Char) : Bool :=
  c = ' ' || c = '\t' || c = '\n' || c = '\r' ||
  c = Char.ofNat 11 || c = Char.ofNat 12

/-- Embedding of `String.prototype.trim`: strips leading and trailing
white space.  (Defined by structural recursion over the character list so
that concrete guards evaluate definitionally.) -/
def jsTrim (s : String) : String :=
  ⟨((s.data.dropWhile jsWhitespace).reverse.dropWhile jsWhitespace).reverse⟩

deriving instance DecidableEq for Except

/-- Role tag of a chat-completion message (app/types/deepseek.ts,
`DeepSeekMessage.role`). -/
inductive Role where
  | user
  | assistant
deriving DecidableEq, Repr

/-- A chat-completion message (app/types/deepseek.ts, `DeepSeekMessage`). -/
structure DeepSeekMessage where
  role : Role
  content : String
deriving DecidableEq, Repr

/-- Successful chat-completion result (app/types/deepseek.ts,
`DeepSeekResponse`). -/
structure DeepSeekResponse where
  message : DeepSeekMessage
  done : Bool
  totalDuration : Option Nat
deriving DecidableEq, Repr

/-- Failed chat-completion result (app/types/deepseek.ts, `DeepSeekError`). -/
structure DeepSeekError where
  error : String
  code : Option Nat
deriving DecidableEq, Repr

/-- The union type `DeepSeekResult = DeepSeekResponse | DeepSeekError`
(app/types/deepseek.ts). -/
inductive DeepSeekResult where
  | ok (r : DeepSeekResponse)
  | err (e : DeepSeekError)
deriving DecidableEq, Repr

/-- A JavaScript exception as observed by a `catch (error)` clause:
whether `error instanceof Error` holds, and the `message` property when
it does. -/
structure JsError where
  isErrorInstance : Bool
  message : String
deriving DecidableEq, Repr

/-- One element of `response.choices` of the together-ai chat completion. -/
structure ChatChoice where
  message : DeepSeekMessage
deriving DecidableEq, Repr

/-- The together-ai chat completion response body, as far as
`queryDeepSeek` reads it (`response.choices[0].message`). -/
structure ChatResponse where
  choices : List ChatChoice
deriving DecidableEq, Repr

/-- Stand-in for the message of the TypeError the JavaScript runtime throws
when `response.choices[0]` is `undefined` and `.message` is read from it.
That exception is an `Error` instance, so its message is forwarded by the
`catch` clause of `queryDeepSeek`. -/
def choicesUndefinedMessage : String :=
  "Cannot read properties of undefined (reading message)"

/-- Embedding of `queryDeepSeek` (app/services/query-deepseek.ts, lines
16-43).  The network call `together.chat.completions.create` is supplied as
the `upstream` argument: `Except.ok` is a response object, `Except.error`
is a thrown exception.  The body of the try block reads
`response.choices[0].message`; when `choices` is empty that read throws a
TypeError, which the catch clause converts — like every other exception —
into a `DeepSeekError` value with code 500.  The `messages` argument is the
request payload; it does not influence which branch is taken. -/
def queryDeepSeek (messages : List DeepSeekMessage)
    (upstream : Except JsError ChatResponse) : DeepSeekResult :=
  match upstream with
  | .ok resp =>
    match resp.choices.head? with
    | some c => .ok { message := c.message, done := true, totalDuration := none }
    | none => .err { error := choicesUndefinedMessage, code := some 500 }
  | .error e =>
    .err { error := if e.isErrorInstance then e.message else "Unknown error occurred"
         , code := some 500 }

/-- One element of `TranscriptionData.segments`.  The JSON field named
`end` is modelled as `stop` (`end` is reserved in Lean); the floating point
fields are carried opaquely as `Int`, the application never computes with
them. -/
structure TranscriptionSegment where
  id : Int
  seek : Int
  start : Int
  stop : Int
  text : String
  tokens : List Int
  temperature : Int
  avg_logprob : Int
  compression_ratio : Int
  no_speech_prob : Int
deriving DecidableEq, Repr

/-- The transcription JSON produced by the external speech-to-text service
and relayed by the transcription endpoints (`TranscriptionData` in the
components): text, language, segments, optional error string. -/
structure TranscriptionData where
  text : String
  language : String
  segments : List TranscriptionSegment
  error : Option String
deriving DecidableEq, Repr

/-- Result of `formData.get("file")` in the transcription relays: the field
can be absent, present but not a `Blob`, or a blob (identified opaquely by
a `Nat`). -/
inductive FileField where
  | missing
  | nonBlob
  | blob (b : Nat)
deriving DecidableEq, Repr

/-- Outcome of the `fetch` to the external transcription service, as
observed by the relay: the fetch can throw, return a non-2xx response
(`response.ok` false), or return a 2xx response whose JSON body parse can
itself fail. -/
inductive UpstreamTr where
  | fetchExn
  | notOk (status : Nat)
  | okBody (body : Except Unit TranscriptionData)
deriving Repr

/-- Response body of the plain transcription relay: the relayed
transcription payload, or a JSON object with an error string. -/
inductive TrBody where
  | payload (t : TranscriptionData)
  | err (msg : String)
deriving DecidableEq, Repr

/-- Embedding of the plain transcription relay action
(app/routes/transcribe.ts, lines 9-34 — the variant headed
transcribe.server.ts).  `form` is the outcome of `request.formData()`
followed by `formData.get("file")`; a throwing `formData()` lands in the
catch clause.  A missing or non-Blob file yields 400; a throwing fetch, a
non-2xx upstream status (the code throws on `!response.ok`) or a failing
body parse all land in the catch clause, which yields the fixed 500
response; otherwise the parsed transcription is relayed with status 200. -/
def transcribeAction (form : Except Unit FileField) (up : UpstreamTr) :
    Nat × TrBody :=
  match form with
  | .error _ => (500, .err "Failed to transcribe audio")
  | .ok .missing => (400, .err "No audio file provided")
  | .ok .nonBlob => (400, .err "No audio file provided")
  | .ok (.blob _) =>
    match up with
    | .fetchExn => (500, .err "Failed to transcribe audio")
    | .notOk _ => (500, .err "Failed to transcribe audio")
    | .okBody (.error _) => (500, .err "Failed to transcribe audio")
    | .okBody (.ok t) => (200, .payload t)

/-- Response body of the chained transcribe action: transcription plus the
chat-completion result, or a JSON object with an error string. -/
inductive ChBody where
  | payload (t : TranscriptionData) (r : DeepSeekResult)
  | err (msg : String)
deriving DecidableEq, Repr

/-- Embedding of the chained transcribe action (the action bundled with
app/routes/app.tsx, lines 38-59, headed app/routes/transcribe.ts).  Same
input validation and catch clause structure as `transcribeAction`, but on
a successful transcription it calls `queryDeepSeek` with the transcribed
text and returns both results with status 200 — including when the
chat-completion upstream failed, in which case the error result is embedded
in the 200 payload.  `dsUp` is the together-ai upstream outcome consumed by
`queryDeepSeek`; it is reached only on the success path. -/
def chainedTranscribeAction (form : Except Unit FileField) (up : UpstreamTr)
    (dsUp : Except JsError ChatResponse) : Nat × ChBody :=
  match form with
  | .error _ => (500, .err "Failed to process request")
  | .ok .missing => (400, .err "No audio file provided")
  | .ok .nonBlob => (400, .err "No audio file provided")
  | .ok (.blob _) =>
    match up with
    | .fetchExn => (500, .err "Failed to process request")
    | .notOk _ => (500, .err "Failed to process request")
    | .okBody (.error _) => (500, .err "Failed to process request")
    | .okBody (.ok t) =>
      (200, .payload t (queryDeepSeek [{ role := .user, content := t.text }] dsUp))

/-- The `ai_response` object of the part_001 dual-fetcher variant
(`DeepSeekResponse` there): a reply string and an optional error, both of
which the component tests for truthiness at runtime. -/
structure AiResp where
  response : Option String
  error : Option String
deriving DecidableEq, Repr

/-- The JSON the external process-text service returns, relayed verbatim by
the process-text relay (`TextProcessingData` in the part_001 dual-fetcher
variant): text, chained AI response, optional error. -/
structure PTResult where
  text : Option String
  ai_response : Option AiResp
  error : Option String
deriving DecidableEq, Repr

/-- The parsed JSON body of a process-text request: only the `text` field
is read (`body.text`), which may be absent. -/
structure ProcessTextBody where
  text : Option String
deriving DecidableEq, Repr

/-- Outcome of the `fetch` to the external process-text service. -/
inductive UpstreamPT where
  | fetchExn
  | notOk (status : Nat)
  | okBody (body : Except Unit PTResult)
deriving Repr

/-- Response body of the process-text relay. -/
inductive PTBody where
  | payload (r : PTResult)
  | err (msg : String)
deriving DecidableEq, Repr

/-- Embedding of the process-text relay action
(app/routes/api.process-text.ts, lines 4-26).  `body` is the outcome of
`await request.json()`; if it throws, the catch clause answers 500.  Note
that the action performs no input validation at all: a missing `text`
field is forwarded upstream as-is (`JSON.stringify({text: body.text})`),
so no code path produces a 400 status.  A throwing fetch, a non-2xx
upstream status or a failing body parse land in the catch clause (fixed
500 response); otherwise the upstream JSON is relayed with status 200. -/
def processTextAction (body : Except Unit ProcessTextBody) (up : UpstreamPT) :
    Nat × PTBody :=
  match body with
  | .error _ => (500, .err "Failed to process text")
  | .ok _ =>
    match up with
    | .fetchExn => (500, .err "Failed to process text")
    | .notOk _ => (500, .err "Failed to process text")
    | .okBody (.error _) => (500, .err "Failed to process text")
    | .okBody (.ok r) => (200, .payload r)

/-- The parsed JSON body of a textmessage request, or the exception thrown
by `await request.json()`; `message` may be absent. -/
inductive TmReqBody where
  | parseExn (e : JsError)
  | parsed (message : Option String)
deriving DecidableEq, Repr

/-- Response body of the textmessage relay. -/
inductive TmBody where
  | payload (r : DeepSeekResponse)
  | err (msg : String)
deriving DecidableEq, Repr

/-- Embedding of the textmessage relay action (the unnamed part_000 source
file, lines 5-36).  A throwing `request.json()` lands in the catch clause,
which forwards the exception message (`error instanceof Error ?
error.message : "Unknown error"`) with status 500.  A falsy `message`
(absent or empty) yields 400.  Otherwise `queryDeepSeek` is called; an
error result is answered with its own error string and status
`response.code || 500`, a success result is relayed with status 200.
`queryDeepSeek` never throws, so the catch clause is reachable only from
the body parse. -/
def textmessageAction (body : TmReqBody)
    (dsUp : Except JsError ChatResponse) : Nat × TmBody :=
  match body with
  | .parseExn e =>
    (500, .err (if e.isErrorInstance then e.message else "Unknown error"))
  | .parsed message =>
    if strTruthy message then
      match queryDeepSeek [{ role := .user, content := message.getD "" }] dsUp with
      | .err e => (e.code.getD 500, .err e.error)
      | .ok r => (200, .payload r)
    else
      (400, .err "Message is required")

/-- Fetcher lifecycle state of a remix `useFetcher` (`"idle" | "submitting"
| "loading"`); the components only test it against `"idle"`. -/
inductive FetcherState where
  | idle
  | submitting
  | loading
deriving DecidableEq, Repr

/-- Origin tag of a chat message.  The canonical component uses only
`user`/`assistant`; the part_001 dual-fetcher variant adds a third tag
`ai` for model replies. -/
inductive MsgType where
  | user
  | assistant
  | ai
deriving DecidableEq, Repr

/-- A chat message of the rendered transcript (`Message` in the
components): id, content, origin tag, timestamp, voice flag (`isVoice` is
optional in the source and defaults to absent, modelled as `false`). -/
structure Message where
  id : String
  content : String
  type : MsgType
  timestamp : Nat
  isVoice : Bool
deriving DecidableEq, Repr

/-- Embedding of `addMessage` as used by the canonical MainInterface
component and the part_001 dual-fetcher variant: appends one message whose
id is the string `msg-<Date.now()>-<random suffix>`.  The clock value and
random suffix of the call are the explicit arguments `now` and `rand`. -/
def addMessage (now : Nat) (rand : String) (msgs : List Message)
    (content : String) (ty : MsgType) (isVoice : Bool) : List Message :=
  msgs ++ [{ id := "msg-" ++ toString now ++ "-" ++ rand
           , content := content, type := ty, timestamp := now
           , isVoice := isVoice }]

/-- A network request issued by a component handler. -/
inductive NetRequest where
  | textmessage (body : String)
  | processText (text : String)
  | transcribeUpload (chunks : List Nat)
deriving DecidableEq, Repr

/-- Client-side view of the chained transcribe action response after JSON
transport (`CombinedResponse` in the canonical component, whose declared
fields `transcription` and `response` are in fact absent on the error
responses the action itself produces). -/
structure CombinedData where
  transcription : Option TranscriptionData
  response : Option DeepSeekResult
  error : Option String
deriving DecidableEq, Repr

/-- JSON transport from the chained transcribe action response to the data
the fetcher delivers to the component: a payload body carries
`transcription` and `response`, an error body carries only `error`. -/
def chainedToFetcherData : Nat × ChBody → CombinedData
  | (_, .payload t r) =>
    { transcription := some t, response := some r, error := none }
  | (_, .err m) =>
    { transcription := none, response := none, error := some m }

/-- Component state of the canonical MainInterface variant
(app/components/MainInterface.tsx, chained fetcher version): the rendered
messages, the text input, the recording flag and the transcribe fetcher
state.  `pendingTextFetches` counts the `fetch("/api/textmessage")` calls
of `handleTextSubmit` that have been issued and not yet completed; no
state variable of the component tracks them. -/
structure UIStateB where
  messages : List Message
  textInput : String
  isRecording : Bool
  transcribeState : FetcherState
  pendingTextFetches : Nat
deriving DecidableEq, Repr

/-- `isTranscribing` of the canonical component:
`transcribeFetcher.state !== "idle"`. -/
def isTranscribing (s : UIStateB) : Bool :=
  s.transcribeState != .idle

/-- The `disabled` expression of the voice button in the canonical
component: `disabled={isTranscribing}`. -/
def voiceButtonDisabled (s : UIStateB) : Bool :=
  isTranscribing s

/-- Synchronous prefix of `handleTextSubmit` of the canonical component
(app/components/MainInterface.tsx, lines 377-396): the guard
`if (!textInput.trim() || isTranscribing) return;`, the user-turn append,
and the dispatch of the `fetch("/api/textmessage")` call.  Returns the new
state and the list of network requests issued.  Note the guard consults
only the transcribe fetcher — an outstanding textmessage fetch does not
block a second submission. -/
def handleTextSubmitStart (t1 : Nat) (r1 : String) (s : UIStateB) :
    UIStateB × List NetRequest :=
  if jsTrim s.textInput = "" ∨ isTranscribing s then (s, [])
  else
    ({ s with messages := addMessage t1 r1 s.messages s.textInput .user false
            , pendingTextFetches := s.pendingTextFetches + 1 }
    , [.textmessage s.textInput])

/-- The parsed JSON of the textmessage response as read by
`handleTextSubmit`: `data.error` and `data.message` (each possibly
absent). -/
structure TextmsgData where
  error : Option String
  message : Option DeepSeekMessage
deriving DecidableEq, Repr

/-- Outcome of `await fetch(...)` plus `await response.json()` inside
`handleTextSubmit`: a parsed body, or a thrown transport/parse error. -/
inductive TextFetchOutcome where
  | ok (d : TextmsgData)
  | exn
deriving DecidableEq, Repr

/-- Continuation of `handleTextSubmit` of the canonical component after
the awaited fetch completes (app/components/MainInterface.tsx, lines
398-418).  `if (!data.error)` appends the reply `data.message.content` as
an assistant turn; when `data.message` is absent that property read throws
inside the try block and the catch clause appends the processing-error
turn instead.  A truthy `data.error` appends the response-error turn, a
thrown fetch/parse appends the processing-error turn.  After the try/catch
the input is cleared (`setTextInput("")`). -/
def handleTextSubmitFinish (t2 : Nat) (r2 : String)
    (outcome : TextFetchOutcome) (s : UIStateB) : UIStateB :=
  let appended :=
    match outcome with
    | .ok d =>
      if strTruthy d.error then
        addMessage t2 r2 s.messages
          "Sorry, there was an error getting a response." .assistant false
      else
        match d.message with
        | some m => addMessage t2 r2 s.messages m.content .assistant false
        | none =>
          addMessage t2 r2 s.messages
            "Sorry, there was an error processing your message." .assistant false
    | .exn =>
      addMessage t2 r2 s.messages
        "Sorry, there was an error processing your message." .assistant false
  { s with messages := appended
         , pendingTextFetches := s.pendingTextFetches - 1
         , textInput := "" }

/-- The complete `handleTextSubmit` flow of the canonical component
(app/components/MainInterface.tsx, lines 377-419): guard, then the
synchronous prefix, then the continuation once the fetch outcome is
known. -/
def handleTextSubmit (t1 : Nat) (r1 : String) (t2 : Nat) (r2 : String)
    (outcome : TextFetchOutcome) (s : UIStateB) : UIStateB × List NetRequest :=
  if jsTrim s.textInput = "" ∨ isTranscribing s then (s, [])
  else
    let started := handleTextSubmitStart t1 r1 s
    (handleTextSubmitFinish t2 r2 outcome started.1, started.2)

/-- Stand-in for the message of the TypeError thrown by the transcribe
effect of the canonical component when it reads
`response.transcription.error` while `transcription` is absent. -/
def typeErrorTranscriptionUndefined : String :=
  "Cannot read properties of undefined (reading error)"

/-- Stand-in for the message of the TypeError thrown by the transcribe
effect of the canonical component when it reads
`response.response.message.content` while the chained result is an error
object carrying no `message` field. -/
def typeErrorMessageUndefined : String :=
  "Cannot read properties of undefined (reading content)"

/-- Embedding of the transcribe-fetcher effect of the canonical component
(app/components/MainInterface.tsx, lines 335-366).  Runs when fetcher data
is present and the fetcher is back to idle.  It dereferences
`response.transcription.error` without checking that `transcription` is
present, so on the error responses the chained action produces the effect
throws (`Except.error`) and appends nothing.  On a present transcription:
a falsy `transcription.error` appends the voice user turn and then either
the reply content (throwing when the chained result is an error object,
which has no `message`), or — only when `response.response` is absent
altogether — the response-error turn; a truthy `transcription.error`
appends the voice-error turn. -/
def transcribeEffect (t1 : Nat) (r1 : String) (t2 : Nat) (r2 : String)
    (msgs : List Message) (data : Option CombinedData) (st : FetcherState) :
    Except String (List Message) :=
  match data with
  | none => .ok msgs
  | some d =>
    if st = .idle then
      match d.transcription with
      | none => .error typeErrorTranscriptionUndefined
      | some tr =>
        if strTruthy tr.error then
          .ok (addMessage t1 r1 msgs
                "Sorry, there was an error processing your voice message."
                .assistant false)
        else
          let m1 := addMessage t1 r1 msgs tr.text .user true
          match d.response with
          | some (.ok dr) =>
            .ok (addMessage t2 r2 m1 dr.message.content .assistant false)
          | some (.err _) => .error typeErrorMessageUndefined
          | none =>
            .ok (addMessage t2 r2 m1
                  "Sorry, there was an error getting a response."
                  .assistant false)
    else .ok msgs

/-- Component state of the part_001 dual-fetcher variant (unnamed part_001
source file, second version): messages, text input, recording flag and the
states of its two fetchers. -/
structure UIStateP1B where
  messages : List Message
  textInput : String
  isRecording : Bool
  transcribeState : FetcherState
  textState : FetcherState
deriving DecidableEq, Repr

/-- `isProcessing` of the part_001 dual-fetcher variant (lines 343-344):
`transcribeFetcher.state !== "idle" || textFetcher.state !== "idle"`. -/
def isProcessingP1B (s : UIStateP1B) : Bool :=
  s.transcribeState != .idle || s.textState != .idle

/-- The `disabled` expression of the voice button in the part_001
dual-fetcher variant: `disabled={isProcessing}`. -/
def voiceButtonDisabledP1B (s : UIStateP1B) : Bool :=
  isProcessingP1B s

/-- Embedding of `handleTextSubmit` of the part_001 dual-fetcher variant
(unnamed part_001 source file, lines 475-494): guard
`if (!textInput.trim() || isProcessing) return;`, user-turn append,
`textFetcher.submit` to the process-text relay (which moves the fetcher
out of idle), input cleared. -/
def handleTextSubmitP1B (t1 : Nat) (r1 : String) (s : UIStateP1B) :
    UIStateP1B × List NetRequest :=
  if jsTrim s.textInput = "" ∨ isProcessingP1B s then (s, [])
  else
    ({ s with messages := addMessage t1 r1 s.messages s.textInput .user false
            , textState := .submitting
            , textInput := "" }
    , [.processText s.textInput])

/-- Component state of the part_001 counter-id variant (unnamed part_001
source file, first version): messages, the `messageCounter` state used for
id generation, text input and the transcribe fetcher state. -/
structure UIStateP1A where
  messages : List Message
  messageCounter : Nat
  textInput : String
  transcribeState : FetcherState
deriving DecidableEq, Repr

/-- Embedding of `addMessage` of the part_001 counter-id variant (unnamed
part_001 source file, lines 98-111).  `setMessageCounter((prev) => prev +
1)` increments the stored counter with a functional update, but the id
string interpolates the `messageCounter` variable of the enclosing render
scope.  React state variables are constant for the duration of one event
handler invocation, so every `addMessage` call made by the same handler
run uses the same `snapshot` value in its id while still incrementing the
stored counter. -/
def addMessageP1A (snapshot : Nat) (now : Nat) (s : UIStateP1A)
    (content : String) (ty : MsgType) (isVoice : Bool) : UIStateP1A :=
  { s with messageCounter := s.messageCounter + 1
         , messages := s.messages ++
             [{ id := "msg-" ++ toString snapshot, content := content
              , type := ty, timestamp := now, isVoice := isVoice }] }

/-- Embedding of `handleTextSubmit` of the part_001 counter-id variant
(unnamed part_001 source file, lines 153-169): guard, then two `addMessage`
calls — the user turn and the canned assistant reply — both executed in
the same handler run and therefore both using the render-scope
`messageCounter` snapshot in their ids, then the input is cleared. -/
def handleTextSubmitP1A (now1 : Nat) (now2 : Nat) (s : UIStateP1A) :
    UIStateP1A :=
  if jsTrim s.textInput = "" ∨ s.transcribeState ≠ .idle then s
  else
    let snapshot := s.messageCounter
    let s1 := addMessageP1A snapshot now1 s s.textInput .user false
    let s2 := addMessageP1A snapshot now2 s1
      ("I received your message: \"" ++ s.textInput ++
       "\". How can I assist you further?") .assistant false
    { s2 with textInput := "" }

/-- A media track of the captured stream; `stop()` marks it stopped. -/
structure Track where
  stopped : Bool
deriving DecidableEq, Repr

/-- The `MediaRecorder` held in `mediaRecorderRef`: the tracks of the
stream it records, and whether it is currently recording. -/
structure RecorderState where
  tracks : List Track
  recording : Bool
deriving DecidableEq, Repr

/-- Recording-related component state: the recorder ref, the chunk buffer
ref (`chunksRef.current`; chunks are opaque `Nat`s) and the `isRecording`
state variable. -/
structure CaptureState where
  mediaRecorder : Option RecorderState
  chunks : List Nat
  isRecording : Bool
deriving DecidableEq, Repr

/-- Outcome of `navigator.mediaDevices.getUserMedia({audio: true})`: a
granted stream with its tracks, or a thrown permission/device error. -/
inductive MicAccess where
  | granted (tracks : List Track)
  | denied
deriving DecidableEq, Repr

/-- Embedding of `startRecording` (app/components/MainInterface.tsx, lines
275-307).  On granted access a fresh recorder is installed, the chunk
buffer is reset to empty, recording starts.  On a thrown `getUserMedia`
the catch clause leaves the capture state untouched and appends the
microphone-error assistant turn. -/
def startRecording (now : Nat) (rand : String) (msgs : List Message)
    (s : CaptureState) (mic : MicAccess) : CaptureState × List Message :=
  match mic with
  | .granted tracks =>
    ({ mediaRecorder := some { tracks := tracks, recording := true }
     , chunks := []
     , isRecording := true }, msgs)
  | .denied =>
    (s, addMessage now rand msgs
          "Error accessing microphone. Please check your permissions."
          .assistant false)

/-- Embedding of the `ondataavailable` handler: appends one chunk to the
chunk buffer. -/
def onDataAvailable (c : Nat) (s : CaptureState) : CaptureState :=
  { s with chunks := s.chunks ++ [c] }

/-- Embedding of `stopRecording` (app/components/MainInterface.tsx, lines
309-317): when a recorder is held and recording is on, the recorder is
stopped, `isRecording` is cleared, and every track of the stream is
stopped.  The chunk buffer is not touched — `onstop` still reads it to
build the upload blob, and it is reset only by the next
`startRecording`. -/
def stopRecording (s : CaptureState) : CaptureState :=
  match s.mediaRecorder with
  | some rec =>
    if s.isRecording then
      { s with
          mediaRecorder := some
            { tracks := rec.tracks.map (fun _ => { stopped := true })
            , recording := false }
        , isRecording := false }
    else s
  | none => s

/-- Embedding of the `onstop` handler of the recorder: builds the upload
blob from the accumulated chunk buffer and submits it to the transcribe
relay. -/
def onStopSubmit (s : CaptureState) : NetRequest :=
  .transcribeUpload s.chunks

/-- C10: `queryDeepSeek` never raises an exception: for every input message
list it returns either a success value carrying the upstream first-choice
message with `done` true, or an error value with code 500 whose error field
is the message of the caught exception (the thrown upstream error when it
is an `Error` instance, the internal TypeError message when the choices
list is empty) or the fallback string `Unknown error occurred` — the error
is returned as a value, never thrown to the caller (the Lean embedding is
a total function into `DeepSeekResult`). -/
theorem queryDeepSeek_returns_result_value (messages : List DeepSeekMessage)
    (upstream : Except JsError ChatResponse) :
    (∃ c rest resp, upstream = .ok resp ∧ resp.choices = c :: rest ∧
      queryDeepSeek messages upstream
        = .ok { message := c.message, done := true, totalDuration := none }) ∨
    (∃ s, queryDeepSeek messages upstream = .err { error := s, code := some 500 } ∧
      (s = choicesUndefinedMessage ∨
       ∃ e, upstream = .error e ∧
         s = (if e.isErrorInstance then e.message else "Unknown error occurred"))) := by
  match upstream with
  | .ok ⟨[]⟩ =>
    exact .inr ⟨choicesUndefinedMessage, rfl, .inl rfl⟩
  | .ok ⟨c :: rest⟩ =>
    exact .inl ⟨c, rest, ⟨c :: rest⟩, rfl, rfl, rfl⟩
  | .error e =>
    exact .inr ⟨_, rfl, .inr ⟨e, rfl, rfl⟩⟩

/-- C5 counterexample: the process-text relay answers a request whose
required `text` field is missing with status 200 (relaying the upstream
result), not 400 — refuting the claim that every relay returns 400
whenever the required input is missing. -/
theorem process_text_missing_input_not_400 :
  processTextAction (.ok { text := none })
      (.okBody (.ok { text := some "x", ai_response := none, error := none }))
    = (200, .payload { text := some "x", ai_response := none, error := none }) ∧
  (200 : Nat) ≠ 400 := by decide

/-- C5 amended: every cited relay answers with either the expected payload
or an error-string object; the transcription relay returns 400 when the
audio file is missing or not a Blob and 500 on upstream failure; the
textmessage relay returns 400 when the message is missing or empty and 500
on upstream failure; the process-text relay performs no input validation —
no input ever produces a 400 — and returns 500 on upstream failure. -/
theorem relay_status_characterization :
  (∀ up, transcribeAction (.ok .missing) up = (400, .err "No audio file provided")) ∧
  (∀ up, transcribeAction (.ok .nonBlob) up = (400, .err "No audio file provided")) ∧
  (∀ b, transcribeAction (.ok (.blob b)) .fetchExn
    = (500, .err "Failed to transcribe audio")) ∧
  (∀ b st, transcribeAction (.ok (.blob b)) (.notOk st)
    = (500, .err "Failed to transcribe audio")) ∧
  (∀ b t, transcribeAction (.ok (.blob b)) (.okBody (.ok t)) = (200, .payload t)) ∧
  (∀ up, textmessageAction (.parsed none) up = (400, .err "Message is required")) ∧
  (∀ up, textmessageAction (.parsed (some "")) up = (400, .err "Message is required")) ∧
  (∀ m e, m ≠ "" → textmessageAction (.parsed (some m)) (.error e)
    = (500, .err (if e.isErrorInstance then e.message else "Unknown error occurred"))) ∧
  (∀ body up, (processTextAction body up).1 ≠ 400) ∧
  (∀ b, processTextAction (.ok b) .fetchExn = (500, .err "Failed to process text")) ∧
  (∀ b st, processTextAction (.ok b) (.notOk st) = (500, .err "Failed to process text")) ∧
  (∀ b r, processTextAction (.ok b) (.okBody (.ok r)) = (200, .payload r)) := by
  refine ⟨fun up => rfl, fun up => rfl, fun b => rfl, fun b st => rfl,
    fun b t => rfl, fun up => rfl, fun up => rfl, ?_, ?_,
    fun b => rfl, fun b st => rfl, fun b r => rfl⟩
  · intro m e h
    have hm : strTruthy (some m) = true := by simp [strTruthy, h]
    simp [textmessageAction, hm, queryDeepSeek]
  · intro body up
    cases body with
    | error e => simp [processTextAction]
    | ok b =>
      cases up with
      | fetchExn => simp [processTextAction]
      | notOk st => simp [processTextAction]
      | okBody r =>
        cases r with
        | error u => simp [processTextAction]
        | ok r => simp [processTextAction]

/-- C5 witness: the amended relay characterization applied at a concrete
non-empty message and a concrete thrown upstream error. -/
theorem relay_status_characterization_witness :
  textmessageAction (.parsed (some "hello"))
      (.error { isErrorInstance := true, message := "boom" })
    = (500, .err "boom") := by
  have h := relay_status_characterization.2.2.2.2.2.2.2.1 "hello"
    { isErrorInstance := true, message := "boom" } (by decide)
  simpa using h

/-- C6 counterexample: an unhandled exception in the textmessage relay is
answered with the exception message itself in the error field — the
response body varies with the exception contents, so the relay does not
return a fixed generic error string. -/
theorem textmessage_forwards_exception_message :
  textmessageAction (.parseExn { isErrorInstance := true, message := "boom" })
      (.ok { choices := [] }) = (500, .err "boom") ∧
  textmessageAction (.parseExn { isErrorInstance := true, message := "secret detail" })
      (.ok { choices := [] }) = (500, .err "secret detail") ∧
  ("boom" : String) ≠ "secret detail" := by decide

/-- C6 amended: the transcription relay, the chained transcribe action and
the process-text relay catch unhandled exceptions and answer with their
fixed generic error strings and status 500; the textmessage relay also
catches and answers 500, but its error string is the exception message
itself (or `Unknown error` for a non-Error throw), so exception contents
are forwarded to the client there. -/
theorem relay_exception_shapes :
  (∀ up, transcribeAction (.error ()) up = (500, .err "Failed to transcribe audio")) ∧
  (∀ up ds, chainedTranscribeAction (.error ()) up ds
    = (500, .err "Failed to process request")) ∧
  (∀ up, processTextAction (.error ()) up = (500, .err "Failed to process text")) ∧
  (∀ e ds, textmessageAction (.parseExn e) ds
    = (500, .err (if e.isErrorInstance then e.message else "Unknown error"))) :=
  ⟨fun _ => rfl, fun _ _ => rfl, fun _ => rfl, fun _ _ => rfl⟩

/-- C4: evaluation at the failing input.  When the relayed transcription
request comes back non-2xx, the chained transcribe action answers the
fixed error body with status 500 without consulting the chat-completion
upstream (the response is independent of it, so the Conversation Client is
never invoked — that part of the claim holds); but the client effect then
dereferences `response.transcription.error` on a body that has no
`transcription` field, throws a TypeError, and appends no assistant error
turn — contradicting the claim that exactly one error turn is appended and
the controller returns to Idle. -/
theorem transcription_failure_crashes_effect_no_error_turn :
  chainedTranscribeAction (.ok (.blob 0)) (.notOk 500) (.ok { choices := [] })
    = (500, .err "Failed to process request") ∧
  (∀ ds1 ds2, chainedTranscribeAction (.ok (.blob 0)) (.notOk 500) ds1
    = chainedTranscribeAction (.ok (.blob 0)) (.notOk 500) ds2) ∧
  transcribeEffect 1 "a" 2 "b" []
      (some (chainedToFetcherData
        (chainedTranscribeAction (.ok (.blob 0)) (.notOk 500) (.ok { choices := [] }))))
      .idle
    = .error typeErrorTranscriptionUndefined :=
  ⟨rfl, fun _ _ => rfl, rfl⟩

/-- C1: for every text submission whose trimmed input is non-empty and that
is accepted while no request is in flight (transcribe fetcher idle, no
outstanding textmessage fetch), by the time the flow completes the message
list has grown by exactly 2 entries: first the user turn carrying the
submitted text, then exactly one assistant turn (the reply on success, or
a single error turn on failure); exactly one network call is issued and no
textmessage fetch remains outstanding. -/
theorem text_submit_appends_user_then_assistant
    (t1 t2 : Nat) (r1 r2 : String) (outcome : TextFetchOutcome) (s : UIStateB)
    (hinput : jsTrim s.textInput ≠ "") (hidle : s.transcribeState = .idle)
    (hnopending : s.pendingTextFetches = 0) :
    ∃ a : Message,
      (handleTextSubmit t1 r1 t2 r2 outcome s).1.messages
        = s.messages ++
            [{ id := "msg-" ++ toString t1 ++ "-" ++ r1, content := s.textInput
             , type := .user, timestamp := t1, isVoice := false }, a] ∧
      a.type = .assistant ∧
      (handleTextSubmit t1 r1 t2 r2 outcome s).1.pendingTextFetches = 0 ∧
      (handleTextSubmit t1 r1 t2 r2 outcome s).2 = [.textmessage s.textInput] := by
  have hguard : ¬(jsTrim s.textInput = "" ∨ isTranscribing s = true) := by
    rintro (h | h)
    · exact hinput h
    · simp [isTranscribing, hidle] at h
  cases outcome with
  | exn =>
    exact ⟨{ id := "msg-" ++ toString t2 ++ "-" ++ r2
           , content := "Sorry, there was an error processing your message."
           , type := .assistant, timestamp := t2, isVoice := false },
      by simp [handleTextSubmit, handleTextSubmitStart, handleTextSubmitFinish,
               hguard, addMessage],
      rfl,
      by simp [handleTextSubmit, handleTextSubmitStart, handleTextSubmitFinish,
               hguard, hnopending],
      by simp [handleTextSubmit, handleTextSubmitStart, hguard]⟩
  | ok d =>
    cases he : strTruthy d.error with
    | true =>
      exact ⟨{ id := "msg-" ++ toString t2 ++ "-" ++ r2
             , content := "Sorry, there was an error getting a response."
             , type := .assistant, timestamp := t2, isVoice := false },
        by simp [handleTextSubmit, handleTextSubmitStart, handleTextSubmitFinish,
                 hguard, he, addMessage],
        rfl,
        by simp [handleTextSubmit, handleTextSubmitStart, handleTextSubmitFinish,
                 hguard, he, hnopending],
        by simp [handleTextSubmit, handleTextSubmitStart, hguard]⟩
    | false =>
      cases hm : d.message with
      | some m =>
        exact ⟨{ id := "msg-" ++ toString t2 ++ "-" ++ r2
               , content := m.content
               , type := .assistant, timestamp := t2, isVoice := false },
          by simp [handleTextSubmit, handleTextSubmitStart, handleTextSubmitFinish,
                   hguard, he, hm, addMessage],
          rfl,
          by simp [handleTextSubmit, handleTextSubmitStart, handleTextSubmitFinish,
                   hguard, he, hm, hnopending],
          by simp [handleTextSubmit, handleTextSubmitStart, hguard]⟩
      | none =>
        exact ⟨{ id := "msg-" ++ toString t2 ++ "-" ++ r2
               , content := "Sorry, there was an error processing your message."
               , type := .assistant, timestamp := t2, isVoice := false },
          by simp [handleTextSubmit, handleTextSubmitStart, handleTextSubmitFinish,
                   hguard, he, hm, addMessage],
          rfl,
          by simp [handleTextSubmit, handleTextSubmitStart, handleTextSubmitFinish,
                   hguard, he, hm, hnopending],
          by simp [handleTextSubmit, handleTextSubmitStart, hguard]⟩

/-- C1 witness: the text-submission growth theorem applied at a concrete
accepted submission with a successful reply. -/
theorem text_submit_appends_user_then_assistant_witness :
  ∃ a : Message,
    (handleTextSubmit 1 "x" 2 "y"
        (.ok { error := none
             , message := some { role := .assistant, content := "ok" } })
        { messages := [], textInput := "hello", isRecording := false
        , transcribeState := .idle, pendingTextFetches := 0 }).1.messages
      = [] ++
          [{ id := "msg-" ++ toString 1 ++ "-" ++ "x", content := "hello"
           , type := .user, timestamp := 1, isVoice := false }, a] ∧
    a.type = .assistant ∧
    (handleTextSubmit 1 "x" 2 "y"
        (.ok { error := none
             , message := some { role := .assistant, content := "ok" } })
        { messages := [], textInput := "hello", isRecording := false
        , transcribeState := .idle, pendingTextFetches := 0 }).1.pendingTextFetches = 0 ∧
    (handleTextSubmit 1 "x" 2 "y"
        (.ok { error := none
             , message := some { role := .assistant, content := "ok" } })
        { messages := [], textInput := "hello", isRecording := false
        , transcribeState := .idle, pendingTextFetches := 0 }).2
      = [.textmessage "hello"] :=
  text_submit_appends_user_then_assistant 1 2 "x" "y" _ _ (by decide) rfl rfl

/-- C3 counterexample: with a chat-completion request outstanding (one
pending textmessage fetch) and the transcribe fetcher idle, a second text
submission in the canonical component is not a no-op: the guard passes,
a user turn is appended and a new network call is issued. -/
theorem second_submit_during_reply_not_noop :
  (handleTextSubmitStart 7 "z"
      { messages := [], textInput := "hi", isRecording := false
      , transcribeState := .idle, pendingTextFetches := 1 }).1.messages
    = [{ id := "msg-7-z", content := "hi", type := .user, timestamp := 7
       , isVoice := false }] ∧
  (handleTextSubmitStart 7 "z"
      { messages := [], textInput := "hi", isRecording := false
      , transcribeState := .idle, pendingTextFetches := 1 }).2
    = [.textmessage "hi"] ∧
  ([] : List Message) ≠
    [{ id := "msg-7-z", content := "hi", type := .user, timestamp := 7
     , isVoice := false }] := by decide

/-- C3 amended: while a transcription request is outstanding, a second
submit action is a no-op in both components (the text-submit guard rejects
and the voice button is disabled); but while only a chat-completion
request is outstanding, the guarantee holds only in the part_001
dual-fetcher variant, whose `isProcessing` covers both fetchers — the
canonical component guards solely on the transcribe fetcher, so a text
submission during an outstanding chat-completion call is accepted. -/
theorem busy_guards_block_second_submit :
  (∀ t : Nat, ∀ r : String, ∀ s : UIStateB,
    isTranscribing s = true → handleTextSubmitStart t r s = (s, [])) ∧
  (∀ s : UIStateB, isTranscribing s = true → voiceButtonDisabled s = true) ∧
  (∀ t : Nat, ∀ r : String, ∀ s : UIStateP1B,
    isProcessingP1B s = true → handleTextSubmitP1B t r s = (s, [])) ∧
  (∀ s : UIStateP1B, isProcessingP1B s = true → voiceButtonDisabledP1B s = true) := by
  refine ⟨?_, ?_, ?_, ?_⟩
  · intro t r s h
    simp [handleTextSubmitStart, h]
  · intro s h
    exact h
  · intro t r s h
    simp [handleTextSubmitP1B, h]
  · intro s h
    exact h

/-- C3 witness: the busy-guard theorem applied at concrete busy states of
each component. -/
theorem busy_guards_block_second_submit_witness :
  handleTextSubmitStart 9 "k"
      { messages := [], textInput := "hi", isRecording := false
      , transcribeState := .submitting, pendingTextFetches := 0 }
    = ({ messages := [], textInput := "hi", isRecording := false
       , transcribeState := .submitting, pendingTextFetches := 0 }, []) ∧
  handleTextSubmitP1B 9 "k"
      { messages := [], textInput := "hi", isRecording := false
      , transcribeState := .idle, textState := .loading }
    = ({ messages := [], textInput := "hi", isRecording := false
       , transcribeState := .idle, textState := .loading }, []) :=
  ⟨busy_guards_block_second_submit.1 9 "k"
      { messages := [], textInput := "hi", isRecording := false
      , transcribeState := .submitting, pendingTextFetches := 0 } (by decide),
   busy_guards_block_second_submit.2.2.1 9 "k"
      { messages := [], textInput := "hi", isRecording := false
      , transcribeState := .idle, textState := .loading } (by decide)⟩

/-- C7: submitting a text input that is empty or consists only of
whitespace leaves the component state — message list included — unchanged
and issues no network call, in the canonical component (both the full flow
and its synchronous prefix) and in the part_001 dual-fetcher variant. -/
theorem whitespace_submit_noop
    (t1 t2 : Nat) (r1 r2 : String) (outcome : TextFetchOutcome)
    (s : UIStateB) (sp : UIStateP1B)
    (h : jsTrim s.textInput = "") (hp : jsTrim sp.textInput = "") :
    handleTextSubmit t1 r1 t2 r2 outcome s = (s, []) ∧
    handleTextSubmitStart t1 r1 s = (s, []) ∧
    handleTextSubmitP1B t1 r1 sp = (sp, []) := by
  refine ⟨?_, ?_, ?_⟩
  · simp [handleTextSubmit, h]
  · simp [handleTextSubmitStart, h]
  · simp [handleTextSubmitP1B, hp]

/-- C7 witness: the whitespace no-op theorem applied at concrete
whitespace-only inputs. -/
theorem whitespace_submit_noop_witness :
  handleTextSubmit 1 "x" 2 "y" .exn
      { messages := [], textInput := "   ", isRecording := false
      , transcribeState := .idle, pendingTextFetches := 0 }
    = ({ messages := [], textInput := "   ", isRecording := false
       , transcribeState := .idle, pendingTextFetches := 0 }, []) ∧
  handleTextSubmitStart 1 "x"
      { messages := [], textInput := "   ", isRecording := false
      , transcribeState := .idle, pendingTextFetches := 0 }
    = ({ messages := [], textInput := "   ", isRecording := false
       , transcribeState := .idle, pendingTextFetches := 0 }, []) ∧
  handleTextSubmitP1B 1 "x"
      { messages := [], textInput := " ", isRecording := false
      , transcribeState := .idle, textState := .idle }
    = ({ messages := [], textInput := " ", isRecording := false
       , transcribeState := .idle, textState := .idle }, []) :=
  whitespace_submit_noop 1 2 "x" "y" .exn
    { messages := [], textInput := "   ", isRecording := false
    , transcribeState := .idle, pendingTextFetches := 0 }
    { messages := [], textInput := " ", isRecording := false
    , transcribeState := .idle, textState := .idle }
    (by decide) (by decide)

/-- C8: evaluation at the failing input.  In the part_001 counter-id
variant, one accepted text submission appends two turns whose ids are both
`msg-0`: the id interpolates the render-scope `messageCounter`, which is
constant for the whole handler run, so the claimed uniqueness of turn
identifiers (which the code comments themselves promise) is violated. -/
theorem counter_variant_duplicate_ids :
  (handleTextSubmitP1A 10 11
      { messages := [], messageCounter := 0, textInput := "hello"
      , transcribeState := .idle }).messages.map Message.id
    = ["msg-0", "msg-0"] ∧
  (handleTextSubmitP1A 10 11
      { messages := [], messageCounter := 0, textInput := "hello"
      , transcribeState := .idle }).messages.length = 2 ∧
  (handleTextSubmitP1A 10 11
      { messages := [], messageCounter := 0, textInput := "hello"
      , transcribeState := .idle }).messageCounter = 2 := by decide

/-- C9 counterexample: stopping a recording session does not clear the
accumulated audio chunk buffer — after `stopRecording` the buffer still
holds the session chunks (it is reset only by the next `startRecording`),
refuting the claim that the chunks are cleared on stop. -/
theorem stop_recording_retains_chunks :
  (stopRecording { mediaRecorder := some { tracks := [{ stopped := false }]
                                         , recording := true }
                 , chunks := [5], isRecording := true }).chunks = [5] ∧
  (stopRecording { mediaRecorder := some { tracks := [{ stopped := false }]
                                         , recording := true }
                 , chunks := [5], isRecording := true }).chunks ≠ [] := by decide

/-- C9 amended: on stop the capture handle is released — the recorder is
stopped and every media track of the stream is stopped — and recording
ends, but the chunk buffer is retained unchanged (the `onstop` handler
still reads it to build the upload) and is cleared only at the start of
the next recording session; on a microphone-access failure at start-up the
capture state is untouched (no recorder or chunk buffer was created) and a
single assistant error turn is appended. -/
theorem stop_releases_tracks_start_clears_chunks :
  (∀ s : CaptureState, ∀ rec : RecorderState,
    s.mediaRecorder = some rec → s.isRecording = true →
    ∃ rec2 : RecorderState,
      (stopRecording s).mediaRecorder = some rec2 ∧
      rec2.recording = false ∧
      (∀ tr ∈ rec2.tracks, tr.stopped = true) ∧
      (stopRecording s).isRecording = false ∧
      (stopRecording s).chunks = s.chunks) ∧
  (∀ now : Nat, ∀ rand : String, ∀ msgs : List Message, ∀ s : CaptureState,
   ∀ tracks : List Track,
    (startRecording now rand msgs s (.granted tracks)).1.chunks = [] ∧
    (startRecording now rand msgs s (.granted tracks)).1.isRecording = true) ∧
  (∀ now : Nat, ∀ rand : String, ∀ msgs : List Message, ∀ s : CaptureState,
    (startRecording now rand msgs s .denied).1 = s ∧
    (startRecording now rand msgs s .denied).2
      = msgs ++ [{ id := "msg-" ++ toString now ++ "-" ++ rand
                 , content := "Error accessing microphone. Please check your permissions."
                 , type := .assistant, timestamp := now, isVoice := false }]) := by
  refine ⟨?_, ?_, ?_⟩
  · intro s rec h hr
    refine ⟨{ tracks := rec.tracks.map (fun _ => { stopped := true })
            , recording := false }, ?_, rfl, ?_, ?_, ?_⟩
    · simp [stopRecording, h, hr]
    · intro tr htr
      rw [List.mem_map] at htr
      obtain ⟨x, hmem, hx⟩ := htr
      simp [← hx]
    · simp [stopRecording, h, hr]
    · simp [stopRecording, h, hr]
  · intro now rand msgs s tracks
    exact ⟨rfl, rfl⟩
  · intro now rand msgs s
    exact ⟨rfl, rfl⟩

/-- C9 witness: the amended capture-lifecycle theorem applied at a
concrete recording state with one live track, and at a concrete denied
microphone acquisition. -/
theorem stop_releases_tracks_start_clears_chunks_witness :
  (∃ rec2 : RecorderState,
    (stopRecording { mediaRecorder := some { tracks := [{ stopped := false }]
                                           , recording := true }
                   , chunks := [5], isRecording := true }).mediaRecorder = some rec2 ∧
    rec2.recording = false ∧
    (∀ tr ∈ rec2.tracks, tr.stopped = true) ∧
    (stopRecording { mediaRecorder := some { tracks := [{ stopped := false }]
                                           , recording := true }
                   , chunks := [5], isRecording := true }).isRecording = false ∧
    (stopRecording { mediaRecorder := some { tracks := [{ stopped := false }]
                                           , recording := true }
                   , chunks := [5], isRecording := true }).chunks = [5]) ∧
  (startRecording 2 "m" []
      { mediaRecorder := none, chunks := [], isRecording := false } .denied).1
    = { mediaRecorder := none, chunks := [], isRecording := false } :=
  ⟨stop_releases_tracks_start_clears_chunks.1
      { mediaRecorder := some { tracks := [{ stopped := false }], recording := true }
      , chunks := [5], isRecording := true }
      { tracks := [{ stopped := false }], recording := true } rfl rfl,
   (stop_releases_tracks_start_clears_chunks.2.2 2 "m" []
      { mediaRecorder := none, chunks := [], isRecording := false }).1⟩
